import Mathlib

/-!
# Shallow embedding of the MuJoCo sample connector's routine and client layers

Source files embedded here:
* `src/Sample.PythonConnector/python/routine.py` — `SimulatorRoutine`
  (set_input / get_output / run_command and their private helpers).
* `src/Sample.PythonConnector/python/client.py` — `SimulatorClient.open_model`.

Modelling conventions:
* Python/numpy float values are modelled as rationals `ℚ`; the claims under
  study are about addressing, dispatch and counter bookkeeping, not float
  rounding.
* numpy 1-D arrays are `List ℚ`; indexing follows Python semantics: a
  negative index `i` addresses position `len + i`, and any index outside
  `[-len, len)` raises (modelled by `Except.error`).
* The physics engine (mj_step, mj_resetData, mj_forward, mj_inverse) and
  model loading are opaque capabilities, passed as function parameters.
* Exceptions are `Except String`; every raise site in the embedded code
  carries the same message text the Python code builds with f-strings.
-/

namespace MujocoConnector

/-- Python-style index normalisation for a 1-D array of length `len`:
a non-negative index must be `< len`; a negative index `i` addresses
`len + i` and must satisfy `-len ≤ i`. Returns `none` when out of bounds
(numpy raises `IndexError` there). -/
def pyIdx (len : Nat) (i : Int) : Option Nat :=
  if 0 ≤ i then
    if i.toNat < len then some i.toNat else none
  else
    if (-i).toNat ≤ len then some (len - (-i).toNat) else none

/-- `xs[i]` with Python/numpy indexing semantics. -/
def pyGet (xs : List ℚ) (i : Int) : Except String ℚ :=
  match pyIdx xs.length i with
  | some n => .ok (xs.getD n 0)
  | none => .error ("index " ++ toString i ++ " is out of bounds for axis 0 with size " ++ toString xs.length)

/-- `xs[i] = v` with Python/numpy indexing semantics. -/
def pySet (xs : List ℚ) (i : Int) (v : ℚ) : Except String (List ℚ) :=
  match pyIdx xs.length i with
  | some n => .ok (xs.set n v)
  | none => .error ("index " ++ toString i ++ " is out of bounds for axis 0 with size " ++ toString xs.length)

/-- A value passed to `set_input`: Python hands over either a scalar or an
array. -/
inductive PyValue where
  | num (q : ℚ)
  | arr (qs : List ℚ)
deriving Repr

/-- Python `float(value)`: succeeds on a scalar, raises on an array
(`TypeError`, caught and re-wrapped by the caller like every exception). -/
def pyFloat : PyValue → Except String ℚ
  | .num q => .ok q
  | .arr _ => .error "float() argument must be a number"

/-- numpy full-slice assignment `xs[:] = value`: a scalar broadcasts over the
array, an array must match the length exactly. -/
def sliceAssign (xs : List ℚ) (v : PyValue) : Except String (List ℚ) :=
  match v with
  | .num q => .ok (xs.map fun _ => q)
  | .arr qs =>
      if qs.length = xs.length then .ok qs
      else .error ("could not broadcast input array from shape (" ++ toString qs.length ++ ",) into shape (" ++ toString xs.length ++ ",)")

/-- Python `str.lower()` (ASCII range suffices for the argument keys in
play). -/
def pyLower (s : String) : String := String.mk (s.data.map Char.toLower)

/-- Decimal-digit run to a number: `none` unless the run is nonempty and
all digits. -/
def parseDigitsAux : List Char → Nat → Option Nat
  | [], acc => some acc
  | c :: cs, acc =>
      if c.isDigit then parseDigitsAux cs (acc * 10 + (c.toNat - 48)) else none

/-- Parse a nonempty all-digit character run. -/
def parseDigits : List Char → Option Nat
  | [] => none
  | c :: cs => parseDigitsAux (c :: cs) 0

/-- Python `int(s)` as used by the routine: optional surrounding whitespace,
optional sign, then decimal digits; `none` models `ValueError`.
(Digit-grouping underscores are not modelled; no call site uses them.) -/
def pyParseInt (s : String) : Option Int :=
  let t := s.data.dropWhile Char.isWhitespace
  let t := (t.reverse.dropWhile Char.isWhitespace).reverse
  match t with
  | '-' :: rest => (parseDigits rest).map (fun n => -(n : Int))
  | '+' :: rest => (parseDigits rest).map (fun n => (n : Int))
  | _ => (parseDigits t).map (fun n => (n : Int))

/-- `arguments.get(key, default)` on the string-keyed arguments dictionary. -/
def dictGet (args : List (String × String)) (key dflt : String) : String :=
  match args.lookup key with
  | some v => v
  | none => dflt

/-- The shared index-extraction idiom of `set_input` and `get_output`:
`index = int(index_str) if index_str else None`, with `ValueError`
mapped to `None`. -/
def parseIndex (index_str : String) : Option Int :=
  if index_str = "" then none else pyParseInt index_str

/-- `mujoco.mj_name2id`: id of the named object, `-1` when absent. -/
def mj_name2id (names : List String) (name : String) : Int :=
  match names.findIdx? (fun n => n == name) with
  | some i => (i : Int)
  | none => -1

/-- The static model metadata the routine reads (`MjModel`). Immutable for
the session's lifetime. -/
structure MjModel where
  jointNames : List String
  jnt_qposadr : List Nat
  jnt_dofadr : List Nat
  sensorNames : List String
  sensor_adr : List Nat
  sensor_dim : List Nat
  actuatorNames : List String
  bodyNames : List String
  body_mocapid : List Int

/-- The mutable simulation state the routine addresses (`MjData`). The
`energy` field is MuJoCo's fixed 2-vector: component 0 is potential,
component 1 is kinetic. -/
structure MjData where
  qpos : List ℚ
  qvel : List ℚ
  ctrl : List ℚ
  sensordata : List ℚ
  mocap_pos : List (List ℚ)
  mocap_quat : List (List ℚ)
  xpos : List (List ℚ)
  xquat : List (List ℚ)
  cvel : List (List ℚ)
  energy : Fin 2 → ℚ
  time : ℚ

/-- The opaque physics-engine capabilities `run_command` dispatches to. -/
structure Engine where
  mj_step : MjModel → MjData → MjData
  mj_resetData : MjModel → MjData → MjData
  mj_forward : MjModel → MjData → MjData
  mj_inverse : MjModel → MjData → MjData

/-- The routine session: model handle, state store, and the session
counters `simulation_time` and `step_count`. -/
structure SimulatorRoutine where
  model : MjModel
  data : MjData
  simulation_time : ℚ
  step_count : Nat

/-- `SimulatorRoutine._set_actuator`: write an actuator control value. -/
def SimulatorRoutine._set_actuator (r : SimulatorRoutine) (name prop : String)
    (value : PyValue) (index : Option Int) : Except String MjData :=
  if prop = "ctrl" then
    if name ≠ "" then
      let actuator_id := mj_name2id r.model.actuatorNames name
      if actuator_id < 0 then .error ("Actuator not found: " ++ name)
      else do
        let v ← pyFloat value
        let ctrl ← pySet r.data.ctrl actuator_id v
        .ok { r.data with ctrl := ctrl }
    else
      match index with
      | some i => do
          let v ← pyFloat value
          let ctrl ← pySet r.data.ctrl i v
          .ok { r.data with ctrl := ctrl }
      | none => .error "Must specify actuator name or index"
  else .error ("Unknown actuator property: " ++ prop)

/-- `SimulatorRoutine._set_joint`: write a joint's qpos/qvel entry. The
per-joint metadata arrays have one entry per joint id (MuJoCo model
invariant), so the `getD` defaults are never reached for a resolved id. -/
def SimulatorRoutine._set_joint (r : SimulatorRoutine) (name prop : String)
    (value : PyValue) (index : Option Int) : Except String MjData :=
  let joint_id := mj_name2id r.model.jointNames name
  if joint_id < 0 then .error ("Joint not found: " ++ name)
  else
    let qpos_adr := r.model.jnt_qposadr.getD joint_id.toNat 0
    let qvel_adr := r.model.jnt_dofadr.getD joint_id.toNat 0
    if prop = "qpos" ∨ prop = "pos" then
      match index with
      | some i => do
          let v ← pyFloat value
          let qpos ← pySet r.data.qpos ((qpos_adr : Int) + i) v
          .ok { r.data with qpos := qpos }
      | none => do
          let v ← pyFloat value
          let qpos ← pySet r.data.qpos (qpos_adr : Int) v
          .ok { r.data with qpos := qpos }
    else if prop = "qvel" ∨ prop = "vel" then
      match index with
      | some i => do
          let v ← pyFloat value
          let qvel ← pySet r.data.qvel ((qvel_adr : Int) + i) v
          .ok { r.data with qvel := qvel }
      | none => do
          let v ← pyFloat value
          let qvel ← pySet r.data.qvel (qvel_adr : Int) v
          .ok { r.data with qvel := qvel }
    else .error ("Unknown joint property: " ++ prop)

/-- `SimulatorRoutine._set_body`: write a mocap body's pose. -/
def SimulatorRoutine._set_body (r : SimulatorRoutine) (name prop : String)
    (value : PyValue) (index : Option Int) : Except String MjData :=
  let body_id := mj_name2id r.model.bodyNames name
  if body_id < 0 then .error ("Body not found: " ++ name)
  else
    let mocap_id := r.model.body_mocapid.getD body_id.toNat (-1)
    if mocap_id < 0 then
      .error ("Body '" ++ name ++ "' is not a mocap body. Use joint properties instead.")
    else
      if prop = "pos" then
        match index with
        | some i => do
            let v ← pyFloat value
            let row ← pySet (r.data.mocap_pos.getD mocap_id.toNat []) i v
            .ok { r.data with mocap_pos := r.data.mocap_pos.set mocap_id.toNat row }
        | none => do
            let row ← sliceAssign (r.data.mocap_pos.getD mocap_id.toNat []) value
            .ok { r.data with mocap_pos := r.data.mocap_pos.set mocap_id.toNat row }
      else if prop = "quat" then
        match index with
        | some i => do
            let v ← pyFloat value
            let row ← pySet (r.data.mocap_quat.getD mocap_id.toNat []) i v
            .ok { r.data with mocap_quat := r.data.mocap_quat.set mocap_id.toNat row }
        | none => do
            let row ← sliceAssign (r.data.mocap_quat.getD mocap_id.toNat []) value
            .ok { r.data with mocap_quat := r.data.mocap_quat.set mocap_id.toNat row }
      else .error ("Unknown mocap body property: " ++ prop)

/-- `SimulatorRoutine._set_qpos`: write generalized position directly. -/
def SimulatorRoutine._set_qpos (r : SimulatorRoutine) (value : PyValue)
    (index : Option Int) : Except String MjData :=
  match index with
  | some i => do
      let v ← pyFloat value
      let qpos ← pySet r.data.qpos i v
      .ok { r.data with qpos := qpos }
  | none => do
      let qpos ← sliceAssign r.data.qpos value
      .ok { r.data with qpos := qpos }

/-- `SimulatorRoutine._set_qvel`: write generalized velocity directly. -/
def SimulatorRoutine._set_qvel (r : SimulatorRoutine) (value : PyValue)
    (index : Option Int) : Except String MjData :=
  match index with
  | some i => do
      let v ← pyFloat value
      let qvel ← pySet r.data.qvel i v
      .ok { r.data with qvel := qvel }
  | none => do
      let qvel ← sliceAssign r.data.qvel value
      .ok { r.data with qvel := qvel }

/-- `SimulatorRoutine._get_sensor`: read a sensor value. -/
def SimulatorRoutine._get_sensor (r : SimulatorRoutine) (name : String)
    (index : Option Int) : Except String ℚ :=
  let sensor_id := mj_name2id r.model.sensorNames name
  if sensor_id < 0 then .error ("Sensor not found: " ++ name)
  else
    let sensor_adr := r.model.sensor_adr.getD sensor_id.toNat 0
    let sensor_dim := r.model.sensor_dim.getD sensor_id.toNat 0
    match index with
    | some i =>
        if (sensor_dim : Int) ≤ i then
          .error ("Sensor index " ++ toString i ++ " out of range (dim=" ++ toString sensor_dim ++ ")")
        else pyGet r.data.sensordata ((sensor_adr : Int) + i)
    | none =>
        if sensor_dim = 1 then pyGet r.data.sensordata (sensor_adr : Int)
        else
          -- return first element for multi-dimensional sensors
          pyGet r.data.sensordata (sensor_adr : Int)

/-- `SimulatorRoutine._get_body`: read a body's world pose/velocity
component. -/
def SimulatorRoutine._get_body (r : SimulatorRoutine) (name prop : String)
    (index : Option Int) : Except String ℚ :=
  let body_id := mj_name2id r.model.bodyNames name
  if body_id < 0 then .error ("Body not found: " ++ name)
  else
    if prop = "pos" ∨ prop = "xpos" then
      match index with
      | some i => pyGet (r.data.xpos.getD body_id.toNat []) i
      | none => pyGet (r.data.xpos.getD body_id.toNat []) 0
    else if prop = "quat" ∨ prop = "xquat" then
      match index with
      | some i => pyGet (r.data.xquat.getD body_id.toNat []) i
      | none => pyGet (r.data.xquat.getD body_id.toNat []) 0
    else if prop = "vel" ∨ prop = "cvel" then
      match index with
      | some i => pyGet (r.data.cvel.getD body_id.toNat []) i
      | none => pyGet (r.data.cvel.getD body_id.toNat []) 0
    else .error ("Unknown body property: " ++ prop)

/-- `SimulatorRoutine._get_joint`: read a joint's qpos/qvel entry. -/
def SimulatorRoutine._get_joint (r : SimulatorRoutine) (name prop : String)
    (index : Option Int) : Except String ℚ :=
  let joint_id := mj_name2id r.model.jointNames name
  if joint_id < 0 then .error ("Joint not found: " ++ name)
  else
    let qpos_adr := r.model.jnt_qposadr.getD joint_id.toNat 0
    let qvel_adr := r.model.jnt_dofadr.getD joint_id.toNat 0
    if prop = "qpos" ∨ prop = "pos" then
      match index with
      | some i => pyGet r.data.qpos ((qpos_adr : Int) + i)
      | none => pyGet r.data.qpos (qpos_adr : Int)
    else if prop = "qvel" ∨ prop = "vel" then
      match index with
      | some i => pyGet r.data.qvel ((qvel_adr : Int) + i)
      | none => pyGet r.data.qvel (qvel_adr : Int)
    else .error ("Unknown joint property: " ++ prop)

/-- `SimulatorRoutine._get_qpos`: read generalized position. -/
def SimulatorRoutine._get_qpos (r : SimulatorRoutine) (index : Option Int) :
    Except String ℚ :=
  match index with
  | some i => pyGet r.data.qpos i
  | none => pyGet r.data.qpos 0

/-- `SimulatorRoutine._get_qvel`: read generalized velocity. -/
def SimulatorRoutine._get_qvel (r : SimulatorRoutine) (index : Option Int) :
    Except String ℚ :=
  match index with
  | some i => pyGet r.data.qvel i
  | none => pyGet r.data.qvel 0

/-- `SimulatorRoutine._get_energy`: read an energy metric (component 0 is
potential, component 1 is kinetic). -/
def SimulatorRoutine._get_energy (r : SimulatorRoutine) (energy_type : String) :
    Except String ℚ :=
  if energy_type = "potential" then .ok (r.data.energy 0)
  else if energy_type = "kinetic" then .ok (r.data.energy 1)
  else if energy_type = "total" then .ok (r.data.energy 0 + r.data.energy 1)
  else .error ("Unknown energy type: " ++ energy_type)

/-- One iteration of the `_step` loop body: advance the engine once and
increment the step counter. -/
def stepOnce (eng : Engine) (m : MjModel) : MjData × Nat → MjData × Nat :=
  fun p => (eng.mj_step m p.1, p.2 + 1)

/-- `SimulatorRoutine._step`: run the engine `n_steps` times (Python's
`range` yields nothing for a non-positive count), then synchronize
`simulation_time` to the engine-reported `data.time`. -/
def SimulatorRoutine._step (r : SimulatorRoutine) (eng : Engine) (n_steps : Int) :
    SimulatorRoutine :=
  let p := (stepOnce eng r.model)^[n_steps.toNat] (r.data, r.step_count)
  { r with data := p.1, step_count := p.2, simulation_time := p.1.time }

/-- `SimulatorRoutine._reset`: reset the engine state and zero both session
counters. -/
def SimulatorRoutine._reset (r : SimulatorRoutine) (eng : Engine) : SimulatorRoutine :=
  { r with data := eng.mj_resetData r.model r.data, simulation_time := 0, step_count := 0 }

/-- `SimulatorRoutine._forward`: forward kinematics pass; counters untouched. -/
def SimulatorRoutine._forward (r : SimulatorRoutine) (eng : Engine) : SimulatorRoutine :=
  { r with data := eng.mj_forward r.model r.data }

/-- `SimulatorRoutine._inverse`: inverse dynamics pass; counters untouched. -/
def SimulatorRoutine._inverse (r : SimulatorRoutine) (eng : Engine) : SimulatorRoutine :=
  { r with data := eng.mj_inverse r.model r.data }

/-- `SimulatorRoutine.set_input`: extract the arguments, dispatch on
`object_type`, and wrap any failure in a "Failed to set input" error. -/
def SimulatorRoutine.set_input (r : SimulatorRoutine)
    (arguments : List (String × String)) (value : PyValue) :
    Except String SimulatorRoutine :=
  let object_type := pyLower (dictGet arguments "object_type" "actuator")
  let object_name := dictGet arguments "object_name" ""
  let prop := pyLower (dictGet arguments "property" "ctrl")
  let index_str := dictGet arguments "index" ""
  let index := parseIndex index_str
  let result : Except String MjData :=
    if object_type = "actuator" then r._set_actuator object_name prop value index
    else if object_type = "joint" then r._set_joint object_name prop value index
    else if object_type = "body" then r._set_body object_name prop value index
    else if object_type = "qpos" then r._set_qpos value index
    else if object_type = "qvel" then r._set_qvel value index
    else .error ("Unknown object type: " ++ object_type)
  match result with
  | .ok d => .ok { r with data := d }
  | .error e => .error ("Failed to set input: " ++ e)

/-- The session state after a `set_input` call, successful or not. Every
raising path in the source precedes its single array store, so on an
exception the Python object is left exactly as it was before the call. -/
def SimulatorRoutine.set_input_post (r : SimulatorRoutine)
    (arguments : List (String × String)) (value : PyValue) : SimulatorRoutine :=
  match r.set_input arguments value with
  | .ok r' => r'
  | .error _ => r

/-- `SimulatorRoutine.get_output`: extract the arguments, dispatch on
`object_type`, and wrap any failure in a "Failed to get output" error.
The source's get paths contain no assignment, so the session state is a
pure input here. -/
def SimulatorRoutine.get_output (r : SimulatorRoutine)
    (arguments : List (String × String)) : Except String ℚ :=
  let object_type := pyLower (dictGet arguments "object_type" "sensor")
  let object_name := dictGet arguments "object_name" ""
  let prop := pyLower (dictGet arguments "property" "sensordata")
  let index_str := dictGet arguments "index" ""
  let index := parseIndex index_str
  let result : Except String ℚ :=
    if object_type = "sensor" then r._get_sensor object_name index
    else if object_type = "body" then r._get_body object_name prop index
    else if object_type = "joint" then r._get_joint object_name prop index
    else if object_type = "qpos" then r._get_qpos index
    else if object_type = "qvel" then r._get_qvel index
    else if object_type = "time" then .ok r.data.time
    else if object_type = "energy" then r._get_energy prop
    else .error ("Unknown object type: " ++ object_type)
  match result with
  | .ok v => .ok v
  | .error e => .error ("Failed to get output: " ++ e)

/-- `SimulatorRoutine.run_command`: extract `command` (default "step") and
`steps` (default "1", parse failure falls back to 1), dispatch; unknown
commands raise unwrapped. -/
def SimulatorRoutine.run_command (r : SimulatorRoutine) (eng : Engine)
    (arguments : List (String × String)) : Except String SimulatorRoutine :=
  let command := pyLower (dictGet arguments "command" "step")
  let steps_str := dictGet arguments "steps" "1"
  let steps : Int := if steps_str ≠ "" then (pyParseInt steps_str).getD 1 else 1
  if command = "step" then .ok (r._step eng steps)
  else if command = "reset" then .ok (r._reset eng)
  else if command = "forward" then .ok (r._forward eng)
  else if command = "inverse" then .ok (r._inverse eng)
  else .error ("Unknown command: " ++ command)

/-- Index of the last occurrence of `c` in `cs`: Python `str.rfind`, with
`none` standing for `-1`. -/
def rfind (cs : List Char) (c : Char) : Option Nat :=
  match cs.reverse.findIdx? (fun x => x == c) with
  | some k => some (cs.length - 1 - k)
  | none => none

/-- The extension component of `os.path.splitext(p)` (posix rules): the
suffix from the last dot, provided that dot lies inside the basename and
some earlier basename character is not a dot (leading dots mark hidden
files, not extensions). -/
def splitextExt (p : String) : String :=
  let cs := p.data
  match rfind cs '.' with
  | none => ""
  | some dotIndex =>
    let start := match rfind cs '/' with
      | none => 0
      | some sepIndex => sepIndex + 1
    if start ≤ dotIndex ∧ ((cs.drop start).take (dotIndex - start)).any (fun x => x != '.') then
      String.mk (cs.drop dotIndex)
    else ""

/-- The result dictionary returned by `open_model`. -/
structure OpenResult where
  success : Bool
  error : Option String
deriving Repr, DecidableEq

/-- The capabilities `open_model` consumes, both outside the embedded core:
`os.path.exists` (filesystem) and `mujoco.MjModel.from_xml_path` (the
engine's loader, whose failure message is opaque). -/
structure ClientEnv where
  path_exists : String → Bool
  from_xml_path : String → Except String MjModel

/-- `SimulatorClient`: the loaded model handle and its path. -/
structure SimulatorClient where
  model : Option MjModel
  model_path : Option String

/-- `SimulatorClient.open_model`: check MuJoCo availability, file existence
and extension, then load; returns the new client state and the result
dictionary. -/
def SimulatorClient.open_model (c : SimulatorClient) (mujoco_available : Bool)
    (env : ClientEnv) (file_path : String) : SimulatorClient × OpenResult :=
  if ¬ mujoco_available then
    (c, ⟨false, some "MuJoCo is not installed"⟩)
  else if ¬ env.path_exists file_path then
    (c, ⟨false, some ("Model file not found: " ++ file_path)⟩)
  else
    let ext := pyLower (splitextExt file_path)
    if ext ∉ [".xml", ".mjcf", ".urdf"] then
      (c, ⟨false, some ("Unsupported file type: " ++ ext ++ ". Supported types: .xml, .mjcf, .urdf")⟩)
    else
      match env.from_xml_path file_path with
      | .ok m => ({ model := some m, model_path := some file_path }, ⟨true, none⟩)
      | .error e => (c, ⟨false, some ("Failed to load MuJoCo model: " ++ e)⟩)

/-- A small concrete model used to exercise the operations: one hinge
joint, one scalar sensor "touch" (address 0), one 3-wide sensor "acc"
(address 1), one actuator, one non-mocap body. -/
def witnessModel : MjModel :=
  { jointNames := ["hinge"], jnt_qposadr := [0], jnt_dofadr := [0],
    sensorNames := ["touch", "acc"], sensor_adr := [0, 1], sensor_dim := [1, 3],
    actuatorNames := ["motor1"], bodyNames := ["world"], body_mocapid := [-1] }

/-- Concrete state matching `witnessModel`. -/
def witnessData : MjData :=
  { qpos := [1, 2], qvel := [3, 4], ctrl := [0], sensordata := [5, 6, 7, 8],
    mocap_pos := [], mocap_quat := [], xpos := [[0, 0, 0]],
    xquat := [[1, 0, 0, 0]], cvel := [[0, 0, 0, 0, 0, 0]],
    energy := fun j => if j = 0 then 2 else 3, time := 7 }

/-- A concrete routine session over the witness model and state. -/
def witnessRoutine : SimulatorRoutine :=
  { model := witnessModel, data := witnessData, simulation_time := 7, step_count := 3 }

/-- A concrete engine: stepping bumps the reported time by one, reset
zeroes it, forward/inverse leave the data alone. -/
def witnessEngine : Engine :=
  { mj_step := fun _ d => { d with time := d.time + 1 },
    mj_resetData := fun _ d => { d with time := 0 },
    mj_forward := fun _ d => d,
    mj_inverse := fun _ d => d }

/-! ## Helper lemmas -/

theorem ok_bind {a : Type} {b : Type} (x : a) (f : a → Except String b) :
    (Except.ok x >>= f) = f x := rfl

theorem pyIdx_ofNat (len n : Nat) (h : n < len) : pyIdx len (n : Int) = some n := by
  simp [pyIdx, h]

theorem pyIdx_nonneg (len : Nat) (i : Int) (h0 : 0 ≤ i) (h : i < (len : Int)) :
    pyIdx len i = some i.toNat := by
  have : i.toNat < len := by omega
  simp [pyIdx, h0, this]

theorem pyIdx_neg (len : Nat) (i : Int) (hneg : i < 0) (h : (-i).toNat ≤ len) :
    pyIdx len i = some (len - (-i).toNat) := by
  have h0 : ¬ (0 ≤ i) := by omega
  simp [pyIdx, h0, h]

theorem pySet_ofNat (xs : List ℚ) (n : Nat) (v : ℚ) (h : n < xs.length) :
    pySet xs (n : Int) v = .ok (xs.set n v) := by
  simp [pySet, pyIdx_ofNat _ _ h]

theorem pySet_neg (xs : List ℚ) (i : Int) (v : ℚ) (hneg : i < 0)
    (h : (-i).toNat ≤ xs.length) :
    pySet xs i v = .ok (xs.set (xs.length - (-i).toNat) v) := by
  simp [pySet, pyIdx_neg _ _ hneg h]

theorem pyGet_ofNat (xs : List ℚ) (n : Nat) (h : n < xs.length) :
    pyGet xs (n : Int) = .ok (xs.getD n 0) := by
  simp [pyGet, pyIdx_ofNat _ _ h]

theorem pyGet_nonneg (xs : List ℚ) (i : Int) (h0 : 0 ≤ i) (h : i < (xs.length : Int)) :
    pyGet xs i = .ok (xs.getD i.toNat 0) := by
  simp [pyGet, pyIdx_nonneg _ _ h0 h]

theorem pyGet_neg (xs : List ℚ) (i : Int) (hneg : i < 0) (h : (-i).toNat ≤ xs.length) :
    pyGet xs i = .ok (xs.getD (xs.length - (-i).toNat) 0) := by
  simp [pyGet, pyIdx_neg _ _ hneg h]

theorem getD_set_self (xs : List ℚ) (n : Nat) (v : ℚ) (h : n < xs.length) :
    (xs.set n v).getD n 0 = v := by
  rw [List.getD_eq_getElem _ _ (by simpa using h)]
  simp [h]

theorem mj_name2id_found (names : List String) (name : String) (i : Nat)
    (h : names.findIdx? (fun n => n == name) = some i) :
    mj_name2id names name = (i : Int) := by
  simp [mj_name2id, h]

theorem pyParseInt_empty : pyParseInt "" = none := rfl

theorem parseIndex_of_parse (s : String) (i : Int) (h : pyParseInt s = some i) :
    parseIndex s = some i := by
  have hne : s ≠ "" := by
    rintro rfl
    rw [pyParseInt_empty] at h
    exact Option.noConfusion h
  simp [parseIndex, hne, h]

/-! ### Dispatch-wrapper equations: how the public operations delegate for
the concrete argument dictionaries used below. Each is definitional. -/

theorem set_input_joint_pos_eq (r : SimulatorRoutine) (name : String) (v : PyValue) :
    r.set_input [("object_type", "joint"), ("object_name", name), ("property", "pos")] v
      = (match r._set_joint name "pos" v none with
         | .ok d => .ok { r with data := d }
         | .error e => .error ("Failed to set input: " ++ e)) := rfl

theorem get_output_joint_pos_eq (r : SimulatorRoutine) (name : String) :
    r.get_output [("object_type", "joint"), ("object_name", name), ("property", "pos")]
      = (match r._get_joint name "pos" none with
         | .ok w => .ok w
         | .error e => .error ("Failed to get output: " ++ e)) := rfl

theorem get_output_sensor_idx_eq (r : SimulatorRoutine) (name istr : String) :
    r.get_output [("object_type", "sensor"), ("object_name", name), ("index", istr)]
      = (match r._get_sensor name (parseIndex istr) with
         | .ok w => .ok w
         | .error e => .error ("Failed to get output: " ++ e)) := rfl

theorem get_output_sensor_noidx_eq (r : SimulatorRoutine) (name : String) :
    r.get_output [("object_type", "sensor"), ("object_name", name)]
      = (match r._get_sensor name none with
         | .ok w => .ok w
         | .error e => .error ("Failed to get output: " ++ e)) := rfl

theorem get_output_qpos_idx_eq (r : SimulatorRoutine) (istr : String) :
    r.get_output [("object_type", "qpos"), ("index", istr)]
      = (match r._get_qpos (parseIndex istr) with
         | .ok w => .ok w
         | .error e => .error ("Failed to get output: " ++ e)) := rfl

theorem set_input_qpos_idx_eq (r : SimulatorRoutine) (istr : String) (v : PyValue) :
    r.set_input [("object_type", "qpos"), ("index", istr)] v
      = (match r._set_qpos v (parseIndex istr) with
         | .ok d => .ok { r with data := d }
         | .error e => .error ("Failed to set input: " ++ e)) := rfl

theorem get_output_qvel_idx_eq (r : SimulatorRoutine) (istr : String) :
    r.get_output [("object_type", "qvel"), ("index", istr)]
      = (match r._get_qvel (parseIndex istr) with
         | .ok w => .ok w
         | .error e => .error ("Failed to get output: " ++ e)) := rfl

theorem set_input_qvel_idx_eq (r : SimulatorRoutine) (istr : String) (v : PyValue) :
    r.set_input [("object_type", "qvel"), ("index", istr)] v
      = (match r._set_qvel v (parseIndex istr) with
         | .ok d => .ok { r with data := d }
         | .error e => .error ("Failed to set input: " ++ e)) := rfl

theorem run_command_step_eq (r : SimulatorRoutine) (eng : Engine) (sstr : String) :
    r.run_command eng [("command", "step"), ("steps", sstr)]
      = .ok (r._step eng (if sstr ≠ "" then (pyParseInt sstr).getD 1 else 1)) := rfl

/-! ### Behaviour of the private helpers under resolution hypotheses -/

theorem set_joint_pos_none (r : SimulatorRoutine) (name : String) (v : ℚ)
    (jid adr : Nat) (qs : List ℚ)
    (hid : mj_name2id r.model.jointNames name = (jid : Int))
    (ha : r.model.jnt_qposadr.getD jid 0 = adr)
    (hq : r.data.qpos = qs)
    (hlt : adr < qs.length) :
    r._set_joint name "pos" (.num v) none = .ok { r.data with qpos := qs.set adr v } := by
  have hnn : ¬ ((jid : Int) < 0) := by omega
  have ha' : r.model.jnt_qposadr[jid]?.getD 0 = adr := by
    simpa [List.getD_eq_getElem?_getD] using ha
  simp [SimulatorRoutine._set_joint, hid, hnn, ha', hq, pyFloat, ok_bind,
    pySet_ofNat _ _ _ hlt]

theorem get_joint_pos_none (r : SimulatorRoutine) (name : String)
    (jid adr : Nat) (qs : List ℚ)
    (hid : mj_name2id r.model.jointNames name = (jid : Int))
    (ha : r.model.jnt_qposadr.getD jid 0 = adr)
    (hq : r.data.qpos = qs)
    (hlt : adr < qs.length) :
    r._get_joint name "pos" none = .ok (qs.getD adr 0) := by
  have hnn : ¬ ((jid : Int) < 0) := by omega
  have ha' : r.model.jnt_qposadr[jid]?.getD 0 = adr := by
    simpa [List.getD_eq_getElem?_getD] using ha
  simp [SimulatorRoutine._get_joint, hid, hnn, ha', hq, pyGet_ofNat _ _ hlt]

theorem get_sensor_idx_oob (r : SimulatorRoutine) (name : String)
    (sid dim : Nat) (i : Int)
    (hid : mj_name2id r.model.sensorNames name = (sid : Int))
    (hdim : r.model.sensor_dim.getD sid 0 = dim)
    (hge : (dim : Int) ≤ i) :
    r._get_sensor name (some i)
      = .error ("Sensor index " ++ toString i ++ " out of range (dim=" ++ toString dim ++ ")") := by
  have hnn : ¬ ((sid : Int) < 0) := by omega
  have hdim' : r.model.sensor_dim[sid]?.getD 0 = dim := by
    simpa [List.getD_eq_getElem?_getD] using hdim
  simp [SimulatorRoutine._get_sensor, hid, hnn, hdim', hge]

theorem get_sensor_noidx (r : SimulatorRoutine) (name : String)
    (sid adr : Nat) (sd : List ℚ)
    (hid : mj_name2id r.model.sensorNames name = (sid : Int))
    (ha : r.model.sensor_adr.getD sid 0 = adr)
    (hsd : r.data.sensordata = sd)
    (hlt : adr < sd.length) :
    r._get_sensor name none = .ok (sd.getD adr 0) := by
  have hnn : ¬ ((sid : Int) < 0) := by omega
  have ha' : r.model.sensor_adr[sid]?.getD 0 = adr := by
    simpa [List.getD_eq_getElem?_getD] using ha
  simp [SimulatorRoutine._get_sensor, hid, hnn, ha', hsd, pyGet_ofNat _ _ hlt]

theorem get_sensor_idx_neg (r : SimulatorRoutine) (name : String)
    (sid adr dim : Nat) (i : Int) (sd : List ℚ)
    (hid : mj_name2id r.model.sensorNames name = (sid : Int))
    (ha : r.model.sensor_adr.getD sid 0 = adr)
    (hdim : r.model.sensor_dim.getD sid 0 = dim)
    (hsd : r.data.sensordata = sd)
    (hneg : i < 0)
    (h0 : 0 ≤ (adr : Int) + i)
    (hlt : (adr : Int) + i < (sd.length : Int)) :
    r._get_sensor name (some i) = .ok (sd.getD ((adr : Int) + i).toNat 0) := by
  have hnn : ¬ ((sid : Int) < 0) := by omega
  have hok : ¬ ((dim : Int) ≤ i) := by omega
  have ha' : r.model.sensor_adr[sid]?.getD 0 = adr := by
    simpa [List.getD_eq_getElem?_getD] using ha
  have hdim' : r.model.sensor_dim[sid]?.getD 0 = dim := by
    simpa [List.getD_eq_getElem?_getD] using hdim
  simp [SimulatorRoutine._get_sensor, hid, hnn, ha', hdim', hok, hsd,
    pyGet_nonneg _ _ h0 hlt]

theorem get_qpos_neg (r : SimulatorRoutine) (i : Int) (qs : List ℚ)
    (hq : r.data.qpos = qs) (hneg : i < 0) (h : (-i).toNat ≤ qs.length) :
    r._get_qpos (some i) = .ok (qs.getD (qs.length - (-i).toNat) 0) := by
  simp [SimulatorRoutine._get_qpos, hq, pyGet_neg _ _ hneg h]

theorem set_qpos_neg (r : SimulatorRoutine) (i : Int) (v : ℚ) (qs : List ℚ)
    (hq : r.data.qpos = qs) (hneg : i < 0) (h : (-i).toNat ≤ qs.length) :
    r._set_qpos (.num v) (some i) = .ok { r.data with qpos := qs.set (qs.length - (-i).toNat) v } := by
  simp [SimulatorRoutine._set_qpos, hq, pyFloat, ok_bind, pySet_neg _ _ _ hneg h]

theorem get_qvel_neg (r : SimulatorRoutine) (i : Int) (vs : List ℚ)
    (hv : r.data.qvel = vs) (hneg : i < 0) (h : (-i).toNat ≤ vs.length) :
    r._get_qvel (some i) = .ok (vs.getD (vs.length - (-i).toNat) 0) := by
  simp [SimulatorRoutine._get_qvel, hv, pyGet_neg _ _ hneg h]

theorem set_qvel_neg (r : SimulatorRoutine) (i : Int) (v : ℚ) (vs : List ℚ)
    (hv : r.data.qvel = vs) (hneg : i < 0) (h : (-i).toNat ≤ vs.length) :
    r._set_qvel (.num v) (some i) = .ok { r.data with qvel := vs.set (vs.length - (-i).toNat) v } := by
  simp [SimulatorRoutine._set_qvel, hv, pyFloat, ok_bind, pySet_neg _ _ _ hneg h]

/-! ### The step loop -/

theorem stepOnce_iterate_fst (eng : Engine) (m : MjModel) (n : Nat) (d : MjData) (c : Nat) :
    ((stepOnce eng m)^[n] (d, c)).1 = (eng.mj_step m)^[n] d := by
  induction n generalizing d c with
  | zero => rfl
  | succ k ih => simp [Function.iterate_succ_apply, stepOnce, ih]

theorem stepOnce_iterate_snd (eng : Engine) (m : MjModel) (n : Nat) (d : MjData) (c : Nat) :
    ((stepOnce eng m)^[n] (d, c)).2 = c + n := by
  induction n generalizing d c with
  | zero => rfl
  | succ k ih =>
      rw [Function.iterate_succ_apply]
      show ((stepOnce eng m)^[k] (eng.mj_step m d, c + 1)).2 = c + (k + 1)
      rw [ih]
      omega

/-- `_step` in closed form: the data is the engine advanced `n.toNat`
times, the step counter grows by `n.toNat`, and the session time is the
reported time of the final data. -/
theorem step_closed_form (r : SimulatorRoutine) (eng : Engine) (n : Int) :
    r._step eng n
      = { r with data := (eng.mj_step r.model)^[n.toNat] r.data,
                 step_count := r.step_count + n.toNat,
                 simulation_time := ((eng.mj_step r.model)^[n.toNat] r.data).time } := by
  simp only [SimulatorRoutine._step, stepOnce_iterate_fst, stepOnce_iterate_snd]

/-! ## Claims -/

/-- C1: for every loaded model and valid joint name, writing value `v` via
`set_input` with object_type "joint", property "pos" and no index, then
reading via `get_output` with the same arguments, returns `v`: both calls
address the joint's qpos base offset. -/
theorem C1_joint_pos_roundtrip (r : SimulatorRoutine) (name : String) (v : ℚ) (jid : Nat)
    (hj : r.model.jointNames.findIdx? (fun n => n == name) = some jid)
    (hadr : r.model.jnt_qposadr.getD jid 0 < r.data.qpos.length) :
    ∃ r', r.set_input [("object_type", "joint"), ("object_name", name), ("property", "pos")] (.num v) = .ok r' ∧
      r'.get_output [("object_type", "joint"), ("object_name", name), ("property", "pos")] = .ok v := by
  have hid := mj_name2id_found _ _ _ hj
  refine ⟨{ r with data := { r.data with qpos := r.data.qpos.set (r.model.jnt_qposadr.getD jid 0) v } }, ?_, ?_⟩
  · rw [set_input_joint_pos_eq, set_joint_pos_none r name v jid _ _ hid rfl rfl hadr]
  · rw [get_output_joint_pos_eq]
    have h2 := get_joint_pos_none
      { r with data := { r.data with qpos := r.data.qpos.set (r.model.jnt_qposadr.getD jid 0) v } }
      name jid (r.model.jnt_qposadr.getD jid 0) (r.data.qpos.set (r.model.jnt_qposadr.getD jid 0) v)
      hid rfl rfl (by simpa using hadr)
    rw [getD_set_self _ _ _ hadr] at h2
    rw [h2]

/-- C1 witness: the round trip through joint "hinge" on the concrete model
stores and returns 9. -/
theorem C1_witness :
    witnessRoutine.model.jointNames.findIdx? (fun n => n == "hinge") = some 0 ∧
    witnessRoutine.model.jnt_qposadr.getD 0 0 < witnessRoutine.data.qpos.length ∧
    (∃ r', witnessRoutine.set_input [("object_type", "joint"), ("object_name", "hinge"), ("property", "pos")] (.num 9) = .ok r' ∧
      r'.get_output [("object_type", "joint"), ("object_name", "hinge"), ("property", "pos")] = .ok 9) :=
  ⟨by decide, by decide, C1_joint_pos_roundtrip witnessRoutine "hinge" 9 0 (by decide) (by decide)⟩

/-- C2: a sensor read through `get_output` whose index is at least the
sensor's declared dimension fails with the OutOfRange message and returns
no value. -/
theorem C2_sensor_index_out_of_range (r : SimulatorRoutine) (name istr : String)
    (sid dim : Nat) (i : Int)
    (hs : r.model.sensorNames.findIdx? (fun n => n == name) = some sid)
    (hdim : r.model.sensor_dim.getD sid 0 = dim)
    (hparse : pyParseInt istr = some i)
    (hge : (dim : Int) ≤ i) :
    r.get_output [("object_type", "sensor"), ("object_name", name), ("index", istr)]
      = .error ("Failed to get output: " ++ ("Sensor index " ++ toString i ++ " out of range (dim=" ++ toString dim ++ ")")) := by
  have hid := mj_name2id_found _ _ _ hs
  rw [get_output_sensor_idx_eq, parseIndex_of_parse _ _ hparse,
    get_sensor_idx_oob r name sid dim i hid hdim hge]

/-- C2 witness: reading sensor "acc" (dimension 3) at index 3 fails with
the OutOfRange message. -/
theorem C2_witness :
    witnessRoutine.model.sensorNames.findIdx? (fun n => n == "acc") = some 1 ∧
    witnessRoutine.model.sensor_dim.getD 1 0 = 3 ∧
    pyParseInt "3" = some 3 ∧
    witnessRoutine.get_output [("object_type", "sensor"), ("object_name", "acc"), ("index", "3")]
      = .error "Failed to get output: Sensor index 3 out of range (dim=3)" :=
  ⟨by decide, by decide, by decide,
    (C2_sensor_index_out_of_range witnessRoutine "acc" "3" 1 3 3 (by decide) (by decide)
      (by decide) (by decide)).trans (congrArg Except.error (by decide))⟩

/-- C3: `run_command` with command "step" and a steps string parsing to a
positive `N` increases the step counter by exactly `N` and sets the
session time to the engine-reported time after the `N`-th advance. -/
theorem C3_step_advances_count_and_time (r : SimulatorRoutine) (eng : Engine)
    (sstr : String) (N : Nat)
    (hparse : pyParseInt sstr = some (N : Int)) (_hpos : 0 < N) :
    ∃ r', r.run_command eng [("command", "step"), ("steps", sstr)] = .ok r' ∧
      r'.step_count = r.step_count + N ∧
      r'.simulation_time = ((eng.mj_step r.model)^[N] r.data).time := by
  have hne : sstr ≠ "" := by
    rintro rfl; rw [pyParseInt_empty] at hparse; exact Option.noConfusion hparse
  refine ⟨r._step eng (N : Int), ?_, ?_, ?_⟩
  · rw [run_command_step_eq]
    simp [hne, hparse]
  · rw [step_closed_form]; simp
  · rw [step_closed_form]; simp

/-- C3 witness: stepping 5 times on the concrete engine raises the step
counter from 3 to 8. -/
theorem C3_witness :
    pyParseInt "5" = some 5 ∧ 0 < 5 ∧
    (∃ r', witnessRoutine.run_command witnessEngine [("command", "step"), ("steps", "5")] = .ok r' ∧
      r'.step_count = witnessRoutine.step_count + 5 ∧
      r'.simulation_time = ((witnessEngine.mj_step witnessRoutine.model)^[5] witnessRoutine.data).time) :=
  ⟨by decide, by decide,
    C3_step_advances_count_and_time witnessRoutine witnessEngine "5" 5 (by decide) (by decide)⟩

/-- C4: `run_command` "reset" zeroes the session time and step count for
any prior state, and it is the only command clearing them: "step" only
adds to the step counter, "forward" and "inverse" leave both counters
unchanged. -/
theorem C4_reset_clears_counters (r : SimulatorRoutine) (eng : Engine) :
    (∃ r₁, r.run_command eng [("command", "reset")] = .ok r₁ ∧
      r₁.simulation_time = 0 ∧ r₁.step_count = 0) ∧
    (∀ n : Int, (r._step eng n).step_count = r.step_count + n.toNat ∧
      r.step_count ≤ (r._step eng n).step_count) ∧
    (∃ r₂, r.run_command eng [("command", "forward")] = .ok r₂ ∧
      r₂.simulation_time = r.simulation_time ∧ r₂.step_count = r.step_count) ∧
    (∃ r₃, r.run_command eng [("command", "inverse")] = .ok r₃ ∧
      r₃.simulation_time = r.simulation_time ∧ r₃.step_count = r.step_count) := by
  refine ⟨⟨r._reset eng, rfl, rfl, rfl⟩, ?_, ⟨r._forward eng, rfl, rfl, rfl⟩,
    ⟨r._inverse eng, rfl, rfl, rfl⟩⟩
  intro n
  rw [step_closed_form]
  exact ⟨rfl, by simp⟩

/-- C5: when the (lower-cased) object_type is not recognized, `set_input`
and `get_output` fail with the InvalidArgument message and the session
state is untouched (`set_input_post` returns the pre-state; the get path
contains no store at all). -/
theorem C5_unknown_object_type (r : SimulatorRoutine) (ot nm pr ix : String) (v : PyValue)
    (hset : pyLower ot ∉ (["actuator", "joint", "body", "qpos", "qvel"] : List String))
    (hget : pyLower ot ∉ (["sensor", "body", "joint", "qpos", "qvel", "time", "energy"] : List String)) :
    r.set_input [("object_type", ot), ("object_name", nm), ("property", pr), ("index", ix)] v
      = .error ("Failed to set input: " ++ ("Unknown object type: " ++ pyLower ot)) ∧
    r.set_input_post [("object_type", ot), ("object_name", nm), ("property", pr), ("index", ix)] v = r ∧
    r.get_output [("object_type", ot), ("object_name", nm), ("property", pr), ("index", ix)]
      = .error ("Failed to get output: " ++ ("Unknown object type: " ++ pyLower ot)) := by
  obtain ⟨h1, h2, h3, h4, h5⟩ :
      pyLower ot ≠ "actuator" ∧ pyLower ot ≠ "joint" ∧ pyLower ot ≠ "body" ∧
      pyLower ot ≠ "qpos" ∧ pyLower ot ≠ "qvel" := by
    simpa [not_or] using hset
  obtain ⟨g1, g2, g3, g4, g5, g6, g7⟩ :
      pyLower ot ≠ "sensor" ∧ pyLower ot ≠ "body" ∧ pyLower ot ≠ "joint" ∧
      pyLower ot ≠ "qpos" ∧ pyLower ot ≠ "qvel" ∧ pyLower ot ≠ "time" ∧
      pyLower ot ≠ "energy" := by
    simpa [not_or] using hget
  have hseteq : r.set_input [("object_type", ot), ("object_name", nm), ("property", pr), ("index", ix)] v
      = (match (if pyLower ot = "actuator" then r._set_actuator nm (pyLower pr) v (parseIndex ix)
           else if pyLower ot = "joint" then r._set_joint nm (pyLower pr) v (parseIndex ix)
           else if pyLower ot = "body" then r._set_body nm (pyLower pr) v (parseIndex ix)
           else if pyLower ot = "qpos" then r._set_qpos v (parseIndex ix)
           else if pyLower ot = "qvel" then r._set_qvel v (parseIndex ix)
           else .error ("Unknown object type: " ++ pyLower ot)) with
         | .ok d => .ok { r with data := d }
         | .error e => .error ("Failed to set input: " ++ e)) := rfl
  have hgeteq : r.get_output [("object_type", ot), ("object_name", nm), ("property", pr), ("index", ix)]
      = (match (if pyLower ot = "sensor" then r._get_sensor nm (parseIndex ix)
           else if pyLower ot = "body" then r._get_body nm (pyLower pr) (parseIndex ix)
           else if pyLower ot = "joint" then r._get_joint nm (pyLower pr) (parseIndex ix)
           else if pyLower ot = "qpos" then r._get_qpos (parseIndex ix)
           else if pyLower ot = "qvel" then r._get_qvel (parseIndex ix)
           else if pyLower ot = "time" then .ok r.data.time
           else if pyLower ot = "energy" then r._get_energy (pyLower pr)
           else .error ("Unknown object type: " ++ pyLower ot)) with
         | .ok w => .ok w
         | .error e => .error ("Failed to get output: " ++ e)) := rfl
  have hset' : r.set_input [("object_type", ot), ("object_name", nm), ("property", pr), ("index", ix)] v
      = .error ("Failed to set input: " ++ ("Unknown object type: " ++ pyLower ot)) := by
    rw [hseteq, if_neg h1, if_neg h2, if_neg h3, if_neg h4, if_neg h5]
  refine ⟨hset', ?_, ?_⟩
  · unfold SimulatorRoutine.set_input_post
    rw [hset']
  · rw [hgeteq, if_neg g1, if_neg g2, if_neg g3, if_neg g4, if_neg g5, if_neg g6, if_neg g7]

/-- C5 witness: object_type "bogus" fails both operations and leaves the
concrete session unchanged. -/
theorem C5_witness :
    pyLower "bogus" ∉ (["actuator", "joint", "body", "qpos", "qvel"] : List String) ∧
    pyLower "bogus" ∉ (["sensor", "body", "joint", "qpos", "qvel", "time", "energy"] : List String) ∧
    (witnessRoutine.set_input [("object_type", "bogus"), ("object_name", ""), ("property", ""), ("index", "")] (.num 1)
        = .error "Failed to set input: Unknown object type: bogus" ∧
      witnessRoutine.set_input_post [("object_type", "bogus"), ("object_name", ""), ("property", ""), ("index", "")] (.num 1) = witnessRoutine ∧
      witnessRoutine.get_output [("object_type", "bogus"), ("object_name", ""), ("property", ""), ("index", "")]
        = .error "Failed to get output: Unknown object type: bogus") :=
  ⟨by decide, by decide,
    C5_unknown_object_type witnessRoutine "bogus" "" "" "" (.num 1) (by decide) (by decide)⟩

/-- C6: a steps string that fails integer parsing does not make
`run_command` raise; the command proceeds with steps = 1, and an absent
steps argument likewise defaults to 1. -/
theorem C6_steps_parse_fallback (r : SimulatorRoutine) (eng : Engine) (s : String)
    (hfail : pyParseInt s = none) :
    r.run_command eng [("command", "step"), ("steps", s)] = .ok (r._step eng 1) ∧
    r.run_command eng [("command", "step")] = .ok (r._step eng 1) := by
  constructor
  · rw [run_command_step_eq]
    simp [hfail]
  · rfl

/-- C6 witness: the malformed steps string "abc" behaves as steps = 1. -/
theorem C6_witness :
    pyParseInt "abc" = none ∧
    (witnessRoutine.run_command witnessEngine [("command", "step"), ("steps", "abc")]
        = .ok (witnessRoutine._step witnessEngine 1) ∧
      witnessRoutine.run_command witnessEngine [("command", "step")]
        = .ok (witnessRoutine._step witnessEngine 1)) :=
  ⟨by decide, C6_steps_parse_fallback witnessRoutine witnessEngine "abc" (by decide)⟩

/-- C7: with the engine available, `open_model` on a path that does not
exist fails with success `false` and the error message "Model file not
found: " followed by the path, leaving the client unchanged. -/
theorem C7_open_model_missing_file (c : SimulatorClient) (env : ClientEnv) (p : String)
    (h : env.path_exists p = false) :
    c.open_model true env p = (c, ⟨false, some ("Model file not found: " ++ p)⟩) := by
  simp [SimulatorClient.open_model, h]

/-- A client environment whose filesystem has no files. -/
def witnessClientEnv : ClientEnv :=
  { path_exists := fun _ => false, from_xml_path := fun _ => .error "unreachable" }

/-- A fresh client with no model loaded. -/
def witnessClient : SimulatorClient := { model := none, model_path := none }

/-- C7 witness: `open_model "missing.xml"` produces exactly the message of
the scenario in the spec. -/
theorem C7_witness :
    witnessClientEnv.path_exists "missing.xml" = false ∧
    witnessClient.open_model true witnessClientEnv "missing.xml"
      = (witnessClient, ⟨false, some "Model file not found: missing.xml"⟩) :=
  ⟨rfl, C7_open_model_missing_file witnessClient witnessClientEnv "missing.xml" rfl⟩

/-- C8: for every session state, the "energy"/"total" read returns the sum
of the values returned by the "potential" and "kinetic" reads (the state
is a pure input of `get_output`, so it is unchanged between the reads). -/
theorem C8_energy_total_is_sum (r : SimulatorRoutine) :
    r.get_output [("object_type", "energy"), ("property", "potential")] = .ok (r.data.energy 0) ∧
    r.get_output [("object_type", "energy"), ("property", "kinetic")] = .ok (r.data.energy 1) ∧
    r.get_output [("object_type", "energy"), ("property", "total")]
      = .ok (r.data.energy 0 + r.data.energy 1) :=
  ⟨rfl, rfl, rfl⟩

/-- C9: a sensor read with no index returns the element at the sensor's
base address — the first element of its data — with no constraint on the
sensor's declared dimension. -/
theorem C9_sensor_no_index_first_element (r : SimulatorRoutine) (name : String)
    (sid adr : Nat)
    (hs : r.model.sensorNames.findIdx? (fun n => n == name) = some sid)
    (ha : r.model.sensor_adr.getD sid 0 = adr)
    (hlt : adr < r.data.sensordata.length) :
    r.get_output [("object_type", "sensor"), ("object_name", name)]
      = .ok (r.data.sensordata.getD adr 0) := by
  have hid := mj_name2id_found _ _ _ hs
  rw [get_output_sensor_noidx_eq, get_sensor_noidx r name sid adr _ hid ha rfl hlt]

/-- C9 witness: sensor "acc" has dimension 3, yet the no-index read
returns only its first element. -/
theorem C9_witness :
    witnessRoutine.model.sensorNames.findIdx? (fun n => n == "acc") = some 1 ∧
    witnessRoutine.model.sensor_adr.getD 1 0 = 1 ∧
    witnessRoutine.model.sensor_dim.getD 1 0 = 3 ∧
    witnessRoutine.get_output [("object_type", "sensor"), ("object_name", "acc")] = .ok 6 :=
  ⟨by decide, by decide, by decide,
    C9_sensor_no_index_first_element witnessRoutine "acc" 1 1 (by decide) (by decide) (by decide)⟩

/-- C10: an index string parsing to a negative integer is accepted, not
treated as absent: the shared extraction yields it, a sensor read with it
passes the dimension check (which only tests `index ≥ dimension`) and
reads the element before the sensor's base offset, and negative indices
into qpos and qvel address elements from the end of the respective array,
for reads and writes alike. -/
theorem C10_negative_index_semantics (r : SimulatorRoutine) (s : String) (i : Int)
    (name : String) (sid adr dim : Nat) (v : ℚ)
    (hparse : pyParseInt s = some i) (hneg : i < 0)
    (hs : r.model.sensorNames.findIdx? (fun n => n == name) = some sid)
    (ha : r.model.sensor_adr.getD sid 0 = adr)
    (hd : r.model.sensor_dim.getD sid 0 = dim)
    (h0 : 0 ≤ (adr : Int) + i)
    (hlen : (adr : Int) + i < (r.data.sensordata.length : Int))
    (hq : (-i).toNat ≤ r.data.qpos.length)
    (hqv : (-i).toNat ≤ r.data.qvel.length) :
    parseIndex s = some i ∧
    r.get_output [("object_type", "sensor"), ("object_name", name), ("index", s)]
      = .ok (r.data.sensordata.getD ((adr : Int) + i).toNat 0) ∧
    r.get_output [("object_type", "qpos"), ("index", s)]
      = .ok (r.data.qpos.getD (r.data.qpos.length - (-i).toNat) 0) ∧
    (∃ r', r.set_input [("object_type", "qpos"), ("index", s)] (.num v) = .ok r' ∧
      r'.data.qpos = r.data.qpos.set (r.data.qpos.length - (-i).toNat) v) ∧
    r.get_output [("object_type", "qvel"), ("index", s)]
      = .ok (r.data.qvel.getD (r.data.qvel.length - (-i).toNat) 0) ∧
    (∃ r'', r.set_input [("object_type", "qvel"), ("index", s)] (.num v) = .ok r'' ∧
      r''.data.qvel = r.data.qvel.set (r.data.qvel.length - (-i).toNat) v) := by
  have hpi := parseIndex_of_parse _ _ hparse
  have hid := mj_name2id_found _ _ _ hs
  refine ⟨hpi, ?_, ?_, ?_, ?_, ?_⟩
  · rw [get_output_sensor_idx_eq, hpi,
      get_sensor_idx_neg r name sid adr dim i _ hid ha hd rfl hneg h0 hlen]
  · rw [get_output_qpos_idx_eq, hpi, get_qpos_neg r i _ rfl hneg hq]
  · refine ⟨{ r with data := { r.data with qpos := r.data.qpos.set (r.data.qpos.length - (-i).toNat) v } }, ?_, rfl⟩
    rw [set_input_qpos_idx_eq, hpi, set_qpos_neg r i v _ rfl hneg hq]
  · rw [get_output_qvel_idx_eq, hpi, get_qvel_neg r i _ rfl hneg hqv]
  · refine ⟨{ r with data := { r.data with qvel := r.data.qvel.set (r.data.qvel.length - (-i).toNat) v } }, ?_, rfl⟩
    rw [set_input_qvel_idx_eq, hpi, set_qvel_neg r i v _ rfl hneg hqv]

/-- C10 witness: index "-1" on sensor "acc" (base address 1) reads
sensordata[0], on qpos (length 2) reads and writes qpos[1], and on qvel
(length 2) reads and writes qvel[1]. -/
theorem C10_witness :
    pyParseInt "-1" = some (-1) ∧
    witnessRoutine.model.sensorNames.findIdx? (fun n => n == "acc") = some 1 ∧
    (parseIndex "-1" = some (-1) ∧
      witnessRoutine.get_output [("object_type", "sensor"), ("object_name", "acc"), ("index", "-1")] = .ok 5 ∧
      witnessRoutine.get_output [("object_type", "qpos"), ("index", "-1")] = .ok 2 ∧
      (∃ r', witnessRoutine.set_input [("object_type", "qpos"), ("index", "-1")] (.num 9) = .ok r' ∧
        r'.data.qpos = witnessRoutine.data.qpos.set 1 9) ∧
      witnessRoutine.get_output [("object_type", "qvel"), ("index", "-1")] = .ok 4 ∧
      (∃ r'', witnessRoutine.set_input [("object_type", "qvel"), ("index", "-1")] (.num 9) = .ok r'' ∧
        r''.data.qvel = witnessRoutine.data.qvel.set 1 9)) :=
  ⟨by decide, by decide,
    C10_negative_index_semantics witnessRoutine "-1" (-1) "acc" 1 1 3 9 (by decide) (by decide)
      (by decide) (by decide) (by decide) (by decide) (by decide) (by decide) (by decide)⟩

end MujocoConnector
